import Mathlib

/-!
Shallow embedding of Nano-PDF's structure-extraction and layout engine,
translated from src/nano_pdf/ppt_converter.py and src/nano_pdf/ppt_utils.py.
Geometry uses exact rationals (ℚ) in place of Python floats; raw image bytes
are modelled as lists of naturals; the external AI chart recognizer and the
page rasterizer are collaborators outside the engine and enter only as
parameters of the functions that call them.
-/

namespace NanoPDF

/-- A text span extracted from a PDF page (ppt_converter.PDFTextBlock). -/
structure PDFTextBlock where
  text : String
  x : ℚ
  y : ℚ
  width : ℚ
  height : ℚ
  font_name : String
  font_size : ℚ
  font_color : String
  is_bold : Bool
  is_italic : Bool
  rotation : ℚ
deriving DecidableEq, Repr

/-- An image extracted from a PDF page (ppt_converter.PDFImage). -/
structure PDFImage where
  image_data : List Nat
  x : ℚ
  y : ℚ
  width : ℚ
  height : ℚ
  image_type : String
deriving DecidableEq, Repr

/-- A vector drawing extracted from a PDF page (ppt_converter.PDFDrawing). -/
structure PDFDrawing where
  path_data : String
  x : ℚ
  y : ℚ
  width : ℚ
  height : ℚ
  fill_color : Option String
  stroke_color : Option String
  stroke_width : ℚ
deriving DecidableEq, Repr

/-- All elements extracted from one PDF page (ppt_converter.PDFPageElements). -/
structure PDFPageElements where
  page_number : Nat
  width : ℚ
  height : ℚ
  text_blocks : List PDFTextBlock
  images : List PDFImage
  drawings : List PDFDrawing
  background_color : Option String
deriving DecidableEq, Repr

/-- Text styling (ppt_utils.TextStyle, the fields the converter sets). -/
structure TextStyle where
  font_name : String
  font_size : ℚ
  bold : Bool
  italic : Bool
  color : String
deriving DecidableEq, Repr

/-- A run of text with one style (ppt_utils.TextRun). -/
structure TextRun where
  text : String
  style : TextStyle
deriving DecidableEq, Repr

/-- A paragraph of runs (ppt_utils.Paragraph, the fields the converter sets). -/
structure Paragraph where
  runs : List TextRun
  alignment : String
deriving DecidableEq, Repr

/-- A text box element (ppt_utils.TextBox, the fields the converter sets). -/
structure TextBox where
  paragraphs : List Paragraph
  x : ℚ
  y : ℚ
  width : ℚ
  height : ℚ
deriving DecidableEq, Repr

/-- Chart kinds (ppt_utils.ChartType). -/
inductive ChartType where
  | bar | column | line | pie | donut | area | scatter | bubble
  | stacked_bar | stacked_column | clustered_bar | clustered_column
  | waterfall | combo
deriving DecidableEq, Repr

/-- A chart data series (ppt_utils.ChartSeries). -/
structure ChartSeries where
  name : String
  values : List ℚ
  color : Option String
deriving DecidableEq, Repr

/-- Chart data (ppt_utils.ChartData, the fields the converter sets). -/
structure ChartData where
  chart_type : ChartType
  title : Option String
  categories : List String
  series : List ChartSeries
  x_axis_title : Option String
  y_axis_title : Option String
  show_legend : Bool
  data_labels : Bool
  colors : List String
deriving DecidableEq, Repr

/-- A chart element on a slide (ppt_utils.ChartElement). -/
structure ChartElement where
  data : ChartData
  x : ℚ
  y : ℚ
  width : ℚ
  height : ℚ
deriving DecidableEq, Repr

/-- An image element on a slide (ppt_utils.ImageElement). -/
structure ImageElement where
  image_data : List Nat
  x : ℚ
  y : ℚ
  width : ℚ
  height : ℚ
deriving DecidableEq, Repr

/-- A shape element on a slide (ppt_utils.ShapeElement, the fields the converter sets). -/
structure ShapeElement where
  shape_type : String
  x : ℚ
  y : ℚ
  width : ℚ
  height : ℚ
  fill_color : Option String
  border_color : Option String
  border_width : ℚ
deriving DecidableEq, Repr

/-- A table element on a slide (ppt_utils.TableElement; the converter never
    builds tables, so only the cell text and geometry are modelled). -/
structure TableElement where
  rows : List (List String)
  x : ℚ
  y : ℚ
  width : ℚ
  height : ℚ
deriving DecidableEq, Repr

/-- Slide layout information (ppt_utils.SlideLayout). -/
structure SlideLayout where
  width : ℚ
  height : ℚ
  background_color : Option String
deriving DecidableEq, Repr

/-- Complete content of one output slide (ppt_utils.SlideContent). -/
structure SlideContent where
  layout : SlideLayout
  text_boxes : List TextBox
  charts : List ChartElement
  images : List ImageElement
  shapes : List ShapeElement
  tables : List TableElement
deriving DecidableEq, Repr

/-- Conversion options (ppt_converter.ConversionOptions). -/
structure ConversionOptions where
  extract_charts : Bool
  extract_tables : Bool
  preserve_fonts : Bool
  use_ai_extraction : Bool
  fallback_to_image : Bool
  parallel_processing : Bool
  max_workers : Nat
deriving DecidableEq, Repr

/-- The option defaults from ppt_converter.ConversionOptions. -/
def defaultOptions : ConversionOptions :=
  { extract_charts := true, extract_tables := true, preserve_fonts := true,
    use_ai_extraction := true, fallback_to_image := true,
    parallel_processing := true, max_workers := 5 }

/-- points_to_inches (ppt_converter.py line 382): 72 points = 1 inch. -/
def points_to_inches (points : ℚ) : ℚ := points / 72

/-- convert_coordinates (ppt_converter.py lines 387-412): proportional scaling
    of a PDF-point box into slide inches.  The function body has no validation
    and no raise statement; it is a pure arithmetic map. -/
def convert_coordinates (pdf_x pdf_y pdf_width pdf_height
    pdf_page_width pdf_page_height ppt_slide_width ppt_slide_height : ℚ) :
    ℚ × ℚ × ℚ × ℚ :=
  let x_scale := ppt_slide_width / points_to_inches pdf_page_width
  let y_scale := ppt_slide_height / points_to_inches pdf_page_height
  (points_to_inches pdf_x * x_scale,
   points_to_inches pdf_y * y_scale,
   points_to_inches pdf_width * x_scale,
   points_to_inches pdf_height * y_scale)

/-- C9: mapping a box from a (1000,1000) source space to a (100,100) target and
    applying the same map with source and target dimensions swapped reproduces
    the original box within 1 source unit (in fact exactly, over ℚ). -/
theorem convert_coordinates_roundtrip (x y w h : ℚ) :
    |(convert_coordinates (convert_coordinates x y w h 1000 1000 100 100).1
        (convert_coordinates x y w h 1000 1000 100 100).2.1
        (convert_coordinates x y w h 1000 1000 100 100).2.2.1
        (convert_coordinates x y w h 1000 1000 100 100).2.2.2
        100 100 1000 1000).1 - x| ≤ 1 ∧
    |(convert_coordinates (convert_coordinates x y w h 1000 1000 100 100).1
        (convert_coordinates x y w h 1000 1000 100 100).2.1
        (convert_coordinates x y w h 1000 1000 100 100).2.2.1
        (convert_coordinates x y w h 1000 1000 100 100).2.2.2
        100 100 1000 1000).2.1 - y| ≤ 1 ∧
    |(convert_coordinates (convert_coordinates x y w h 1000 1000 100 100).1
        (convert_coordinates x y w h 1000 1000 100 100).2.1
        (convert_coordinates x y w h 1000 1000 100 100).2.2.1
        (convert_coordinates x y w h 1000 1000 100 100).2.2.2
        100 100 1000 1000).2.2.1 - w| ≤ 1 ∧
    |(convert_coordinates (convert_coordinates x y w h 1000 1000 100 100).1
        (convert_coordinates x y w h 1000 1000 100 100).2.1
        (convert_coordinates x y w h 1000 1000 100 100).2.2.1
        (convert_coordinates x y w h 1000 1000 100 100).2.2.2
        100 100 1000 1000).2.2.2 - h| ≤ 1 := by
  have hx : ((x / 72 * (100 / (1000 / 72))) / 72 * (1000 / (100 / 72))) - x = 0 := by ring
  have hy : ((y / 72 * (100 / (1000 / 72))) / 72 * (1000 / (100 / 72))) - y = 0 := by ring
  have hw : ((w / 72 * (100 / (1000 / 72))) / 72 * (1000 / (100 / 72))) - w = 0 := by ring
  have hh : ((h / 72 * (100 / (1000 / 72))) / 72 * (1000 / (100 / 72))) - h = 0 := by ring
  simp only [convert_coordinates, points_to_inches]
  refine ⟨?_, ?_, ?_, ?_⟩ <;>
    first
      | (rw [hx]; norm_num)
      | (rw [hy]; norm_num)
      | (rw [hw]; norm_num)
      | (rw [hh]; norm_num)

/-- C5 counterexample: convert_coordinates applies no minimum floor and never
    rejects degenerate boxes.  A zero-width input box maps to a zero-width
    output box, and a negative source page width flows straight through the
    arithmetic producing a negative output width instead of raising. -/
theorem convert_coordinates_no_floor_cex :
    (convert_coordinates 10 10 0 5 1000 1000 (13333/1000) (15/2)).2.2.1 = 0 ∧
    (convert_coordinates 10 10 20 5 (-1000) 1000 (13333/1000) (15/2)).2.2.1 = -13333/50000 := by
  constructor <;> (simp only [convert_coordinates, points_to_inches]; norm_num)

/-- C5 amended: for positive source page dimensions, convert_coordinates is
    plain proportional scaling: each output coordinate is the input times
    target-over-source on its axis.  Consequently output width is zero exactly
    when input width is zero and negative exactly when it is negative; no floor
    is applied and no error path exists. -/
theorem convert_coordinates_is_pure_scaling
    (x y w h pw ph sw sh : ℚ) (hpw : 0 < pw) (hph : 0 < ph) :
    convert_coordinates x y w h pw ph sw sh =
      (x * sw / pw, y * sh / ph, w * sw / pw, h * sh / ph) := by
  have hpw' : pw ≠ 0 := ne_of_gt hpw
  have hph' : ph ≠ 0 := ne_of_gt hph
  simp only [convert_coordinates, points_to_inches, Prod.mk.injEq]
  refine ⟨?_, ?_, ?_, ?_⟩ <;> field_simp <;> ring

/-- C5 amended, witnessed at a concrete input: a 20×5 box at (10,10) on a
    1000×1000 page maps onto a 100×50 slide to the box (1,1,2,1/2). -/
theorem convert_coordinates_is_pure_scaling_witness :
    (0 : ℚ) < 1000 ∧
    convert_coordinates 10 10 20 5 1000 1000 100 50 = (1, 1/2, 2, 1/4) :=
  ⟨by norm_num,
    (convert_coordinates_is_pure_scaling 10 10 20 5 1000 1000 100 50
      (by norm_num) (by norm_num)).trans (by norm_num)⟩

/-- The kind of a slide element, for stating paint order. -/
inductive ZKind where
  | textbox | chart | image | shape | table
deriving DecidableEq, Repr

/-- The order in which create_presentation (ppt_utils.py lines 265-292) adds
    elements to one slide: text boxes, then charts, then images, then shapes,
    then tables.  python-pptx paints shapes in addition order, so later kinds
    in this list render on top. -/
def slideZOrder (s : SlideContent) : List ZKind :=
  s.text_boxes.map (fun _ => ZKind.textbox) ++
    (s.charts.map (fun _ => ZKind.chart) ++
      (s.images.map (fun _ => ZKind.image) ++
        (s.shapes.map (fun _ => ZKind.shape) ++
          s.tables.map (fun _ => ZKind.table))))

/-- The paint order the specification asserts: shapes first, then images, then
    charts and tables, then text boxes last (on top).  Stated from the spec's
    words, for comparison with slideZOrder. -/
def specZOrder (s : SlideContent) : List ZKind :=
  s.shapes.map (fun _ => ZKind.shape) ++
    s.images.map (fun _ => ZKind.image) ++
    (s.charts.map (fun _ => ZKind.chart) ++ s.tables.map (fun _ => ZKind.table)) ++
    s.text_boxes.map (fun _ => ZKind.textbox)

/-- An empty slide layout at the default 13.333 x 7.5 inch canvas. -/
def defaultLayout : SlideLayout :=
  { width := 13333/1000, height := 15/2, background_color := none }

/-- A minimal text box, used in concrete slides below. -/
def sampleTextBox : TextBox :=
  { paragraphs := [], x := 0, y := 0, width := 1, height := 1 }

/-- A minimal shape, used in concrete slides below. -/
def sampleShape : ShapeElement :=
  { shape_type := "rectangle", x := 1, y := 1, width := 2, height := 1,
    fill_color := some "#ff0000", border_color := none, border_width := 1 }

/-- A slide holding one text box and one shape. -/
def textAndShapeSlide : SlideContent :=
  { layout := defaultLayout, text_boxes := [sampleTextBox], charts := [],
    images := [], shapes := [sampleShape], tables := [] }

/-- C1 counterexample: a slide with one shape and one text box is emitted with
    the text box added first and the shape second, so the shape paints on top
    of the text — the opposite of the claimed shapes-first, text-last order. -/
theorem slideZOrder_ne_specZOrder_cex :
    slideZOrder textAndShapeSlide = [ZKind.textbox, ZKind.shape] ∧
    specZOrder textAndShapeSlide = [ZKind.shape, ZKind.textbox] ∧
    slideZOrder textAndShapeSlide ≠ specZOrder textAndShapeSlide := by
  refine ⟨rfl, rfl, ?_⟩
  decide

/-- Rank of an element kind in the order create_presentation actually adds
    elements: text boxes at the bottom, then charts, images, shapes, and
    tables on top. -/
def zRank : ZKind → Nat
  | .textbox => 0
  | .chart => 1
  | .image => 2
  | .shape => 3
  | .table => 4

/-- C1 amended: every assembled slide is emitted with its elements in
    nondecreasing zRank — all text boxes first (painted at the bottom), then
    all charts, then all images, then all shapes, then all tables (painted on
    top) — regardless of the order elements were extracted or stored. -/
theorem slideZOrder_sorted (s : SlideContent) :
    (slideZOrder s).Pairwise (fun a b => zRank a ≤ zRank b) := by
  have hconst : ∀ {α : Type} (k : ZKind) (l : List α),
      (l.map fun _ => k).Pairwise (fun a b => zRank a ≤ zRank b) := by
    intro α k l
    induction l with
    | nil => exact List.Pairwise.nil
    | cons a t ih =>
        simp only [List.map_cons]
        refine List.Pairwise.cons (fun b hb => ?_) ih
        rcases List.mem_map.mp hb with ⟨c, _, hc⟩
        exact hc ▸ le_refl _
  unfold slideZOrder
  refine List.pairwise_append.mpr ⟨hconst _ _, ?_, ?_⟩
  · refine List.pairwise_append.mpr ⟨hconst _ _, ?_, ?_⟩
    · refine List.pairwise_append.mpr ⟨hconst _ _, ?_, ?_⟩
      · refine List.pairwise_append.mpr ⟨hconst _ _, hconst _ _, ?_⟩
        intro a ha b hb
        rcases List.mem_map.mp ha with ⟨_, _, rfl⟩
        rcases List.mem_map.mp hb with ⟨_, _, rfl⟩
        decide
      · intro a ha b hb
        rcases List.mem_map.mp ha with ⟨_, _, rfl⟩
        rcases List.mem_append.mp hb with hb | hb <;>
          rcases List.mem_map.mp hb with ⟨_, _, rfl⟩ <;> decide
    · intro a ha b hb
      rcases List.mem_map.mp ha with ⟨_, _, rfl⟩
      rcases List.mem_append.mp hb with hb | hb
      · rcases List.mem_map.mp hb with ⟨_, _, rfl⟩; decide
      · rcases List.mem_append.mp hb with hb | hb <;>
          rcases List.mem_map.mp hb with ⟨_, _, rfl⟩ <;> decide
  · intro a ha b hb
    rcases List.mem_map.mp ha with ⟨_, _, rfl⟩
    rcases List.mem_append.mp hb with hb | hb
    · rcases List.mem_map.mp hb with ⟨_, _, rfl⟩; decide
    · rcases List.mem_append.mp hb with hb | hb
      · rcases List.mem_map.mp hb with ⟨_, _, rfl⟩; decide
      · rcases List.mem_append.mp hb with hb | hb <;>
          rcases List.mem_map.mp hb with ⟨_, _, rfl⟩ <;> decide

/-- The per-page results table of _convert_pages_parallel (ppt_converter.py
    lines 640-668): workers finish in some completion order and each stores its
    slide keyed by its page number (`results[page] = slide_content`).  The
    per-page value is a function of the page alone: either the converted slide
    or, when the worker raised, the page's image fallback. -/
def parallelResults {α : Type} (pageResult : Nat → α) (order : List Nat) :
    List (Nat × α) :=
  order.map (fun p => (p, pageResult p))

/-- The final re-ordering step `[results[p] for p in pages]` (line 671): read
    the results table back in the requested page order.  A missing key (never
    reached when every requested page completed) is modelled as `none`, like
    Python's KeyError. -/
def collectOrdered {α : Type} (results : List (Nat × α)) :
    List Nat → Option (List α)
  | [] => some []
  | p :: rest => do
      let s ← results.lookup p
      let tail ← collectOrdered results rest
      pure (s :: tail)

/-- The method _convert_pages_parallel: store results in completion order, then return
    them in the requested page order. -/
def convertPagesParallel {α : Type} (pageResult : Nat → α)
    (pages order : List Nat) : Option (List α) :=
  collectOrdered (parallelResults pageResult order) pages

/-- The method _convert_pages_sequential (ppt_converter.py lines 673-703): convert each
    requested page in turn and append its slide. -/
def convertPagesSequential {α : Type} (pageResult : Nat → α)
    (pages : List Nat) : List α :=
  pages.map pageResult

/-- Looking a page up in the results table yields that page's result whenever
    the page completed, regardless of where in the completion order it sits. -/
theorem lookup_parallelResults {α : Type} (pageResult : Nat → α) (p : Nat)
    (order : List Nat) (h : p ∈ order) :
    (parallelResults pageResult order).lookup p = some (pageResult p) := by
  induction order with
  | nil => cases h
  | cons q rest ih =>
      simp only [parallelResults, List.map_cons, List.lookup]
      by_cases hpq : p = q
      · subst hpq
        simp
      · have hp : p ∈ rest := by
          rcases List.mem_cons.mp h with h' | h'
          · exact absurd h' hpq
          · exact h'
        have : (p == q) = false := beq_false_of_ne hpq
        rw [this]
        exact ih hp

/-- C2: for every completion order of the parallel workers that covers all the
    requested pages, the parallel conversion returns the slides in the
    requested page order — identical to the sequential conversion's output. -/
theorem convertPagesParallel_eq_sequential {α : Type} (pageResult : Nat → α)
    (pages order : List Nat) (h : ∀ p ∈ pages, p ∈ order) :
    convertPagesParallel pageResult pages order =
      some (convertPagesSequential pageResult pages) := by
  induction pages with
  | nil => rfl
  | cons p rest ih =>
      have hp : p ∈ order := h p (List.mem_cons_self p rest)
      have hrest : ∀ q ∈ rest, q ∈ order := fun q hq => h q (List.mem_cons_of_mem p hq)
      simp only [convertPagesParallel, collectOrdered,
        lookup_parallelResults pageResult p order hp, Option.bind_eq_bind,
        Option.some_bind]
      rw [show collectOrdered (parallelResults pageResult order) rest =
            convertPagesParallel pageResult rest order from rfl, ih hrest]
      simp [convertPagesSequential]

/-- C2 witnessed concretely: pages [1,2,3] with workers completing in the
    order 3,1,2 still produce the slides for pages 1,2,3 in that order. -/
theorem convertPagesParallel_eq_sequential_witness :
    (∀ p ∈ [1, 2, 3], p ∈ [3, 1, 2]) ∧
    convertPagesParallel (fun p => p * 10) [1, 2, 3] [3, 1, 2] = some [10, 20, 30] :=
  ⟨by decide,
    (convertPagesParallel_eq_sequential (fun p => p * 10) [1, 2, 3] [3, 1, 2]
      (by decide)).trans (by decide)⟩

/-- The sort key of group_text_blocks (ppt_converter.py line 428):
    `sorted(text_blocks, key=lambda b: (b.y, b.x))`, i.e. lexicographic order
    on (top, left).  Python's sort is stable; Mathlib's insertionSort with this
    total preorder realizes the same stable ordering. -/
def spanKeyLe (a b : PDFTextBlock) : Prop :=
  a.y < b.y ∨ (a.y = b.y ∧ a.x ≤ b.x)

instance : DecidableRel spanKeyLe := fun a b =>
  inferInstanceAs (Decidable (a.y < b.y ∨ (a.y = b.y ∧ a.x ≤ b.x)))

/-- The continuation test from group_text_blocks's loop body (ppt_converter.py
    lines 437-446): the walked span joins the current group iff the vertical
    gap to the previous span is below twice the walked span's font size AND it
    either horizontally overlaps the previous span (within the tolerance) or
    has the same font name.  The source also computes `similar_size`
    (font sizes within 2pt) but never uses it in the condition. -/
def sameGroupTest (prev current : PDFTextBlock) (tolerance : ℚ) : Bool :=
  let vertical_gap := |current.y - (prev.y + prev.height)|
  let horizontal_overlap :=
    !(decide (current.x > prev.x + prev.width + tolerance) ||
      decide (prev.x > current.x + current.width + tolerance))
  let same_font := current.font_name == prev.font_name
  decide (vertical_gap < current.font_size * 2) && (horizontal_overlap || same_font)

/-- The grouping walk of group_text_blocks (lines 430-453): `front ++ [prev]`
    is the current group, `pending` the spans still to walk.  A span passing
    the continuation test joins the current group; otherwise the current group
    is emitted and the span starts a new one. -/
def groupWalk (tolerance : ℚ) (front : List PDFTextBlock) (prev : PDFTextBlock) :
    List PDFTextBlock → List (List PDFTextBlock)
  | [] => [front ++ [prev]]
  | c :: rest =>
      if sameGroupTest prev c tolerance then
        groupWalk tolerance (front ++ [prev]) c rest
      else
        (front ++ [prev]) :: groupWalk tolerance [] c rest

/-- group_text_blocks (ppt_converter.py lines 419-455): sort the spans by
    (top, left) and walk them once, splitting into groups with groupWalk.
    An empty input yields no groups. -/
def group_text_blocks (text_blocks : List PDFTextBlock) (tolerance : ℚ) :
    List (List PDFTextBlock) :=
  match List.insertionSort spanKeyLe text_blocks with
  | [] => []
  | first :: rest => groupWalk tolerance [] first rest

/-- The groups emitted by the walk concatenate back to exactly the walked
    spans, in order. -/
theorem groupWalk_flatten (tolerance : ℚ) (pending : List PDFTextBlock) :
    ∀ (front : List PDFTextBlock) (prev : PDFTextBlock),
      (groupWalk tolerance front prev pending).flatten = front ++ prev :: pending := by
  induction pending with
  | nil => intro front prev; simp [groupWalk]
  | cons c rest ih =>
      intro front prev
      simp only [groupWalk]
      by_cases h : sameGroupTest prev c tolerance
      · rw [if_pos h, ih (front ++ [prev]) c]
        simp
      · rw [if_neg h]
        simp only [List.flatten_cons, ih [] c]
        simp

/-- Every group the walk emits is nonempty. -/
theorem groupWalk_ne_nil (tolerance : ℚ) (pending : List PDFTextBlock) :
    ∀ (front : List PDFTextBlock) (prev : PDFTextBlock),
      ∀ g ∈ groupWalk tolerance front prev pending, g ≠ [] := by
  induction pending with
  | nil =>
      intro front prev g hg
      simp only [groupWalk, List.mem_singleton] at hg
      subst hg
      simp
  | cons c rest ih =>
      intro front prev g hg
      simp only [groupWalk] at hg
      by_cases h : sameGroupTest prev c tolerance
      · rw [if_pos h] at hg
        exact ih (front ++ [prev]) c g hg
      · rw [if_neg h] at hg
        rcases List.mem_cons.mp hg with hg | hg
        · subst hg; simp
        · exact ih [] c g hg

/-- C10: group_text_blocks partitions its input: the emitted groups flatten to
    a permutation of the input spans (each span lands in exactly one group),
    every emitted group is nonempty, and an empty input yields no groups. -/
theorem group_text_blocks_partition (text_blocks : List PDFTextBlock) (tolerance : ℚ) :
    List.Perm (group_text_blocks text_blocks tolerance).flatten text_blocks ∧
    (∀ g ∈ group_text_blocks text_blocks tolerance, g ≠ []) ∧
    group_text_blocks [] tolerance = [] := by
  refine ⟨?_, ?_, rfl⟩
  · unfold group_text_blocks
    rcases hs : List.insertionSort spanKeyLe text_blocks with _ | ⟨first, rest⟩
    · have := List.perm_insertionSort spanKeyLe text_blocks
      rw [hs] at this
      simpa using this.symm
    · have hperm := List.perm_insertionSort spanKeyLe text_blocks
      rw [hs] at hperm
      have h1 : (groupWalk tolerance [] first rest).flatten = first :: rest := by
        rw [groupWalk_flatten tolerance rest [] first]
        simp
      rw [h1]
      exact hperm
  · unfold group_text_blocks
    rcases List.insertionSort spanKeyLe text_blocks with _ | ⟨first, rest⟩
    · simp
    · exact groupWalk_ne_nil tolerance rest [] first

/-- A concrete span: "a" at the top of the page, Arial 12. -/
def spanA : PDFTextBlock :=
  { text := "a", x := 0, y := 0, width := 100, height := 10,
    font_name := "Arial", font_size := 12, font_color := "#000000",
    is_bold := false, is_italic := false, rotation := 0 }

/-- A concrete span: "b", identical to spanA (same font, same size, same
    column) but 100 points lower — a vertical gap of 90 points, far above the
    2 x 12 = 24 point tolerance. -/
def spanB : PDFTextBlock :=
  { text := "b", x := 0, y := 100, width := 100, height := 10,
    font_name := "Arial", font_size := 12, font_color := "#000000",
    is_bold := false, is_italic := false, rotation := 0 }

/-- C3 counterexample: spanA and spanB share one font family and have font
    sizes within 2pt of each other, yet because their vertical gap (90pt)
    exceeds twice the font size, group_text_blocks splits them into two
    blocks — the continuation test requires the small vertical gap
    unconditionally, so font similarity never overrides a large gap. -/
theorem group_text_blocks_large_gap_splits_cex :
    spanB.font_name = spanA.font_name ∧
    |spanB.font_size - spanA.font_size| < 2 ∧
    group_text_blocks [spanA, spanB] 5 = [[spanA], [spanB]] := by
  refine ⟨rfl, by norm_num [spanA, spanB], ?_⟩
  have hle : spanKeyLe spanA spanB := by
    left
    norm_num [spanA, spanB]
  have hsort : List.insertionSort spanKeyLe [spanA, spanB] = [spanA, spanB] := by
    simp only [List.insertionSort, List.orderedInsert]
    rw [if_pos hle]
  have hsg : sameGroupTest spanA spanB 5 = false := by
    norm_num [sameGroupTest, spanA, spanB]
  unfold group_text_blocks
  rw [hsort]
  simp [groupWalk, hsg]

/-- C3 amended: for two spans already in sorted order, group_text_blocks keeps
    them in one block exactly when the continuation test holds — vertical gap
    below twice the second span's font size AND (horizontal overlap OR same
    font name) — and otherwise starts a new block.  A gap at or above twice
    the font size therefore always starts a new block, whatever the fonts;
    the font-size-within-2pt similarity computed in the source is unused. -/
theorem group_text_blocks_pair (a b : PDFTextBlock) (tolerance : ℚ)
    (h : spanKeyLe a b) :
    group_text_blocks [a, b] tolerance =
      if sameGroupTest a b tolerance then [[a, b]] else [[a], [b]] := by
  have hsort : List.insertionSort spanKeyLe [a, b] = [a, b] := by
    simp only [List.insertionSort, List.orderedInsert]
    rw [if_pos h]
  unfold group_text_blocks
  rw [hsort]
  by_cases hg : sameGroupTest a b tolerance
  · rw [if_pos hg]
    simp [groupWalk, hg]
  · rw [if_neg hg]
    simp [groupWalk, hg]

/-- C3 amended, witnessed concretely: spanA sorts before spanB and the pair
    theorem evaluates to the two-block split, the continuation test being
    false at this input. -/
theorem group_text_blocks_pair_witness :
    spanKeyLe spanA spanB ∧
    group_text_blocks [spanA, spanB] 7 = [[spanA], [spanB]] :=
  ⟨by
    left
    norm_num [spanA, spanB],
   (group_text_blocks_pair spanA spanB 7 (by left; norm_num [spanA, spanB])).trans
     (by
       have hsg : sameGroupTest spanA spanB 7 = false := by
         norm_num [sameGroupTest, spanA, spanB]
       rw [hsg]
       simp)⟩

/-- The proximity test of _cluster_drawings (ppt_converter.py lines 515-519):
    the centers of the two drawings are within the distance threshold on both
    axes. -/
def closeCenters (a b : PDFDrawing) (thr : ℚ) : Bool :=
  decide (|(a.x + a.width / 2) - (b.x + b.width / 2)| < thr) &&
    decide (|(a.y + a.height / 2) - (b.y + b.height / 2)| < thr)

/-- The helper _cluster_drawings (ppt_converter.py lines 496-525): greedy single-pass
    clustering.  The first unused drawing starts a cluster and absorbs, in
    input order, every later unused drawing whose center is within the
    threshold of ITS center; the rest are clustered recursively. -/
def _cluster_drawings (thr : ℚ) : List PDFDrawing → List (List PDFDrawing)
  | [] => []
  | d :: rest =>
      (d :: rest.filter (fun o => closeCenters d o thr)) ::
        _cluster_drawings thr (rest.filter (fun o => !closeCenters d o thr))
termination_by l => l.length
decreasing_by
  exact Nat.lt_succ_of_le (List.length_filter_le _ _)

/-- Defining equation of _cluster_drawings on the empty list. -/
theorem cluster_drawings_nil (thr : ℚ) : _cluster_drawings thr [] = [] := by
  rw [_cluster_drawings]

/-- Defining equation of _cluster_drawings on a nonempty list. -/
theorem cluster_drawings_cons (thr : ℚ) (d : PDFDrawing) (rest : List PDFDrawing) :
    _cluster_drawings thr (d :: rest) =
      (d :: rest.filter (fun o => closeCenters d o thr)) ::
        _cluster_drawings thr (rest.filter (fun o => !closeCenters d o thr)) := by
  rw [_cluster_drawings]

/-- The bounding box of a cluster (detect_chart_region lines 481-488):
    min/max over its member drawings, returned as (x, y, width, height). -/
def clusterBox : List PDFDrawing → Option (ℚ × ℚ × ℚ × ℚ)
  | [] => none
  | d :: ds =>
      let min_x := ds.foldl (fun m o => min m o.x) d.x
      let min_y := ds.foldl (fun m o => min m o.y) d.y
      let max_x := ds.foldl (fun m o => max m (o.x + o.width)) (d.x + d.width)
      let max_y := ds.foldl (fun m o => max m (o.y + o.height)) (d.y + d.height)
      some (min_x, min_y, max_x - min_x, max_y - min_y)

/-- detect_chart_region (ppt_converter.py lines 458-493): cluster the vector
    drawings; every cluster of at least 3 drawings whose bounding box covers
    more than 10% of the page's width and height becomes a chart-region
    candidate.  The `images` parameter is accepted, exactly as in the source,
    but the body never reads it. -/
def detect_chart_region (images : List PDFImage) (drawings : List PDFDrawing)
    (page_width page_height : ℚ) : List (ℚ × ℚ × ℚ × ℚ) :=
  (_cluster_drawings 50 drawings).filterMap (fun cluster =>
    if 3 ≤ cluster.length then
      match clusterBox cluster with
      | none => none
      | some (min_x, min_y, w, h) =>
          if w > page_width * (1/10) ∧ h > page_height * (1/10) then
            some (min_x, min_y, w, h)
          else none
    else none)

/-- A raster image comfortably above the spec's 100-unit size threshold. -/
def bigImage : PDFImage :=
  { image_data := [], x := 100, y := 100, width := 300, height := 200,
    image_type := "raster" }

/-- C6 counterexample: a page holding one 300 x 200 image and no vector
    drawings yields no chart-region candidates at all — detect_chart_region
    never consults the image primitives, so no image bounding box is proposed
    however large the image is. -/
theorem detect_chart_region_ignores_big_image_cex :
    bigImage.width > 100 ∧ bigImage.height > 100 ∧
    detect_chart_region [bigImage] [] 1000 1000 = [] := by
  refine ⟨by norm_num [bigImage], by norm_num [bigImage], ?_⟩
  unfold detect_chart_region
  rw [cluster_drawings_nil]
  rfl

/-- C6 amended: the candidate list of detect_chart_region is entirely
    independent of the image primitives passed to it; candidates arise only
    from clusters of at least 3 vector drawings whose joint bounding box
    exceeds 10% of the page in both dimensions. -/
theorem detect_chart_region_independent_of_images
    (images images' : List PDFImage) (drawings : List PDFDrawing)
    (page_width page_height : ℚ) :
    detect_chart_region images drawings page_width page_height =
      detect_chart_region images' drawings page_width page_height := rfl

/-- A solid red 60 x 60 rectangle at height 0, horizontal offset x. -/
def solidRect (x : ℚ) : PDFDrawing :=
  { path_data := "", x := x, y := 0, width := 60, height := 60,
    fill_color := some "#ff0000", stroke_color := none, stroke_width := 1 }

/-- Evaluation of detect_chart_region on the three solid rectangles: they
    cluster together and their joint box is proposed. -/
theorem detect_chart_region_solid_eval :
    detect_chart_region [] [solidRect 0, solidRect 10, solidRect 20] 100 100 =
      [(0, 0, 80, 60)] := by
  have h01 : closeCenters (solidRect 0) (solidRect 10) 50 = true := by
    norm_num [closeCenters, solidRect]
  have h02 : closeCenters (solidRect 0) (solidRect 20) 50 = true := by
    norm_num [closeCenters, solidRect]
  have hcl : _cluster_drawings 50 [solidRect 0, solidRect 10, solidRect 20] =
      [[solidRect 0, solidRect 10, solidRect 20]] := by
    rw [cluster_drawings_cons]
    simp [List.filter_cons, List.filter_nil, h01, h02, cluster_drawings_nil]
  have hbox : clusterBox [solidRect 0, solidRect 10, solidRect 20] =
      some (0, 0, 80, 60) := by
    simp only [clusterBox, List.foldl, solidRect]
    norm_num
  unfold detect_chart_region
  rw [hcl]
  simp only [List.filterMap, hbox, List.length_cons, List.length_nil]
  norm_num

/-- C7 counterexample: three overlapping rectangles all filled with the same
    solid color — a region whose rendering is a single flat color, i.e. a
    256-bin intensity histogram concentrated in one bin with Shannon entropy
    0 — cluster together and are proposed as a chart candidate on a 100 x 100
    page.  No entropy (or any pixel-content) filter is applied. -/
theorem detect_chart_region_proposes_solid_region_cex :
    (∀ d ∈ [solidRect 0, solidRect 10, solidRect 20],
        d.fill_color = some "#ff0000" ∧ d.stroke_color = none) ∧
    detect_chart_region [] [solidRect 0, solidRect 10, solidRect 20] 100 100 =
      [(0, 0, 80, 60)] := by
  constructor
  · intro d hd
    rcases List.mem_cons.mp hd with h | hd
    · subst h; exact ⟨rfl, rfl⟩
    rcases List.mem_cons.mp hd with h | hd
    · subst h; exact ⟨rfl, rfl⟩
    rcases List.mem_cons.mp hd with h | hd
    · subst h; exact ⟨rfl, rfl⟩
    · cases hd
  · exact detect_chart_region_solid_eval

/-- Recoloring of a drawing: replace its fill and stroke colors, keeping its
    geometry.  Used to state that candidate detection ignores color content. -/
def recolorDrawing (fc sc : Option String) (d : PDFDrawing) : PDFDrawing :=
  { d with fill_color := fc, stroke_color := sc }

/-- Clustering only reads drawing geometry, so it commutes with recoloring. -/
theorem cluster_drawings_recolor (thr : ℚ) (fc sc : Option String) :
    ∀ (n : Nat) (ds : List PDFDrawing), ds.length ≤ n →
      _cluster_drawings thr (ds.map (recolorDrawing fc sc)) =
        (_cluster_drawings thr ds).map (List.map (recolorDrawing fc sc)) := by
  intro n
  induction n with
  | zero =>
      intro ds hds
      have : ds = [] := List.length_eq_zero.mp (Nat.le_zero.mp hds)
      subst this
      simp [cluster_drawings_nil]
  | succ n ih =>
      intro ds hds
      match ds with
      | [] => simp [cluster_drawings_nil]
      | d :: rest =>
          have hclose : ∀ o : PDFDrawing,
              closeCenters (recolorDrawing fc sc d) (recolorDrawing fc sc o) thr =
                closeCenters d o thr := fun o => rfl
          rw [List.map_cons, cluster_drawings_cons, cluster_drawings_cons]
          rw [List.filter_map, List.filter_map]
          simp only [Function.comp_def]
          have heq1 : (fun o => closeCenters (recolorDrawing fc sc d)
              (recolorDrawing fc sc o) thr) = fun o => closeCenters d o thr := by
            funext o
            exact hclose o
          have heq2 : (fun o => !closeCenters (recolorDrawing fc sc d)
              (recolorDrawing fc sc o) thr) = fun o => !closeCenters d o thr := by
            funext o
            rw [hclose o]
          rw [heq1, heq2]
          have hlen : (rest.filter (fun o => !closeCenters d o thr)).length ≤ n :=
            le_trans (List.length_filter_le _ _) (Nat.le_of_succ_le_succ hds)
          rw [ih _ hlen]
          simp

/-- The bounding box of a cluster only reads geometry, so it is unchanged by
    recoloring. -/
theorem clusterBox_recolor (fc sc : Option String) (cluster : List PDFDrawing) :
    clusterBox (cluster.map (recolorDrawing fc sc)) = clusterBox cluster := by
  match cluster with
  | [] => rfl
  | d :: ds =>
      simp only [List.map_cons, clusterBox, List.foldl_map]
      rfl

/-- C7 amended: detect_chart_region applies no entropy or pixel-content
    filter of any kind — its candidate list is invariant under arbitrarily
    recoloring every drawing (for instance painting everything one solid
    color), depending only on drawing geometry: cluster size and bounding-box
    coverage.  Low-entropy solid regions are therefore proposed exactly like
    any other region of the same geometry. -/
theorem detect_chart_region_ignores_pixel_content
    (images : List PDFImage) (drawings : List PDFDrawing)
    (page_width page_height : ℚ) (fc sc : Option String) :
    detect_chart_region images (drawings.map (recolorDrawing fc sc))
        page_width page_height =
      detect_chart_region images drawings page_width page_height := by
  unfold detect_chart_region
  rw [cluster_drawings_recolor 50 fc sc drawings.length drawings (le_refl _)]
  rw [List.filterMap_map]
  congr 1
  funext cluster
  simp only [Function.comp, List.length_map, clusterBox_recolor]

/-- The method _process_text_blocks (ppt_converter.py lines 860-916): group the spans,
    map each group's joint bounding box into slide coordinates, and build a
    text box per group with one left-aligned paragraph per span; widths and
    heights are floored at 0.5 and 0.3 inches respectively. -/
def _process_text_blocks (text_blocks : List PDFTextBlock)
    (pdf_page_width pdf_page_height slide_width slide_height : ℚ) : List TextBox :=
  (group_text_blocks text_blocks 5).filterMap (fun group =>
    match group with
    | [] => none
    | g :: gs =>
        let min_x := gs.foldl (fun m b => min m b.x) g.x
        let min_y := gs.foldl (fun m b => min m b.y) g.y
        let max_x := gs.foldl (fun m b => max m (b.x + b.width)) (g.x + g.width)
        let max_y := gs.foldl (fun m b => max m (b.y + b.height)) (g.y + g.height)
        let c := convert_coordinates min_x min_y (max_x - min_x) (max_y - min_y)
          pdf_page_width pdf_page_height slide_width slide_height
        let paragraphs := (g :: gs).map (fun b =>
          let style : TextStyle :=
            { font_name := b.font_name,
              font_size := b.font_size * (slide_height / points_to_inches pdf_page_height),
              bold := b.is_bold, italic := b.is_italic, color := b.font_color }
          let run : TextRun := { text := b.text, style := style }
          ({ runs := [run], alignment := "left" } : Paragraph))
        some { paragraphs := paragraphs, x := c.1, y := c.2.1,
               width := max c.2.2.1 (1/2), height := max c.2.2.2 (3/10) })

/-- The method _process_images (ppt_converter.py lines 918-945): map every image's box
    into slide coordinates; no image is ever dropped. -/
def _process_images (images : List PDFImage)
    (pdf_page_width pdf_page_height slide_width slide_height : ℚ) : List ImageElement :=
  images.map (fun img =>
    let c := convert_coordinates img.x img.y img.width img.height
      pdf_page_width pdf_page_height slide_width slide_height
    { image_data := img.image_data, x := c.1, y := c.2.1,
      width := c.2.2.1, height := c.2.2.2 })

/-- The method _process_drawings (ppt_converter.py lines 947-988): map each drawing into
    slide coordinates, dropping those below 0.05 inch in either dimension, and
    pick a shape kind from the aspect ratio. -/
def _process_drawings (drawings : List PDFDrawing)
    (pdf_page_width pdf_page_height slide_width slide_height : ℚ) : List ShapeElement :=
  drawings.filterMap (fun d =>
    let c := convert_coordinates d.x d.y d.width d.height
      pdf_page_width pdf_page_height slide_width slide_height
    if c.2.2.1 < 1/20 ∨ c.2.2.2 < 1/20 then none
    else
      let aspect := if c.2.2.2 > 0 then c.2.2.1 / c.2.2.2 else 1
      let shape_type :=
        if 9/10 < aspect ∧ aspect < 11/10 then
          (if c.2.2.1 < 1/2 then "oval" else "rectangle")
        else "rectangle"
      some { shape_type := shape_type, x := c.1, y := c.2.1,
             width := c.2.2.1, height := c.2.2.2,
             fill_color := d.fill_color, border_color := d.stroke_color,
             border_width := d.stroke_width })

/-- create_slide_from_image (ppt_utils.py lines 949-985): the whole-page image
    fallback slide — the rendered page image aspect-fitted and centered on an
    otherwise empty slide, as a single image element. -/
def create_slide_from_image (image_width image_height slide_width slide_height : ℚ)
    (image_bytes : List Nat) : SlideContent :=
  let img_aspect := image_width / image_height
  let slide_aspect := slide_width / slide_height
  let box : ℚ × ℚ × ℚ × ℚ :=
    if img_aspect > slide_aspect then
      (0, (slide_height - slide_width / img_aspect) / 2,
        slide_width, slide_width / img_aspect)
    else
      ((slide_width - slide_height * img_aspect) / 2, 0,
        slide_height * img_aspect, slide_height)
  { layout := { width := slide_width, height := slide_height, background_color := none },
    text_boxes := [], charts := [],
    images := [{ image_data := image_bytes, x := box.1, y := box.2.1,
                 width := box.2.2.1, height := box.2.2.2 }],
    shapes := [], tables := [] }

/-- The method _detect_and_extract_charts (ppt_converter.py lines 769-808), parameterized
    by the outcome of the external AI collaborator: `some cs` is the chart
    element list the try block builds from the recognizer's analysis; `none`
    models an exception raised inside the try block (for instance the
    recognizer failing on every call), which the except clause swallows,
    returning the empty chart list.  No image element is produced here in
    either case. -/
def _detect_and_extract_charts (recognized : Option (List ChartElement)) :
    List ChartElement :=
  match recognized with
  | some cs => cs
  | none => []

/-- The method _convert_single_page (ppt_converter.py lines 705-767): build the slide's
    chart, text, image and shape lists, then — only when text boxes, charts
    AND images are all absent and fallback is enabled — replace the whole page
    by the given fallback slide (the page rendered as one image).  The shapes
    list is not consulted by the fallback test. -/
def _convert_single_page (opts : ConversionOptions)
    (recognized : Option (List ChartElement)) (elements : PDFPageElements)
    (pdf_page_width pdf_page_height slide_width slide_height : ℚ)
    (fallback_slide : SlideContent) : SlideContent :=
  let charts := if opts.extract_charts && opts.use_ai_extraction then
      _detect_and_extract_charts recognized
    else []
  let text_boxes := _process_text_blocks elements.text_blocks
    pdf_page_width pdf_page_height slide_width slide_height
  let images := _process_images elements.images
    pdf_page_width pdf_page_height slide_width slide_height
  let shapes := _process_drawings elements.drawings
    pdf_page_width pdf_page_height slide_width slide_height
  if opts.fallback_to_image && text_boxes.isEmpty && charts.isEmpty && images.isEmpty then
    fallback_slide
  else
    { layout := { width := slide_width, height := slide_height,
                  background_color := elements.background_color },
      text_boxes := text_boxes, charts := charts, images := images,
      shapes := shapes, tables := [] }

/-- A page holding one text span and the three solid rectangles that
    detect_chart_region proposes as a chart candidate. -/
def pageWithChartCandidate : PDFPageElements :=
  { page_number := 1, width := 100, height := 100,
    text_blocks := [spanA], images := [],
    drawings := [solidRect 0, solidRect 10, solidRect 20],
    background_color := none }

/-- C4 counterexample: on a page that does carry a detected chart candidate
    (the solid-rectangle cluster) alongside one text span, a recognizer that
    raises on every call leaves the slide model with NO chart elements and NO
    image elements at all — the candidate does not resolve to a static image
    element; it simply vanishes.  (The whole-page image fallback does not fire
    here because a text box was extracted.) -/
theorem convert_single_page_candidate_vanishes_cex :
    detect_chart_region pageWithChartCandidate.images pageWithChartCandidate.drawings
        pageWithChartCandidate.width pageWithChartCandidate.height ≠ [] ∧
    (_convert_single_page defaultOptions none pageWithChartCandidate 100 100 (40/3) (15/2)
        (create_slide_from_image 200 100 (40/3) (15/2) [])).charts = [] ∧
    (_convert_single_page defaultOptions none pageWithChartCandidate 100 100 (40/3) (15/2)
        (create_slide_from_image 200 100 (40/3) (15/2) [])).images = [] := by
  refine ⟨?_, ?_, ?_⟩
  · show detect_chart_region [] [solidRect 0, solidRect 10, solidRect 20] 100 100 ≠ []
    rw [detect_chart_region_solid_eval]
    simp
  · rfl
  · rfl

/-- C4 amended: when the chart recognizer raises on every call, the page's
    slide model contains no chart elements and no substitute static images for
    the candidates; the page keeps whatever text boxes, images and shapes were
    extracted, and only when text boxes, charts and images are all absent
    (with fallback enabled) is the page replaced wholesale by the fallback
    slide, which consists of exactly one full-page image — so the model is
    nonempty in that case, but not through any per-candidate image. -/
theorem convert_single_page_recognizer_fails (opts : ConversionOptions)
    (elements : PDFPageElements)
    (pdf_page_width pdf_page_height slide_width slide_height : ℚ)
    (image_width image_height : ℚ) (image_bytes : List Nat)
    (hfb : opts.fallback_to_image = true) :
    (_convert_single_page opts none elements pdf_page_width pdf_page_height
        slide_width slide_height
        (create_slide_from_image image_width image_height slide_width slide_height
          image_bytes)).charts = [] ∧
    ((_convert_single_page opts none elements pdf_page_width pdf_page_height
          slide_width slide_height
          (create_slide_from_image image_width image_height slide_width slide_height
            image_bytes)).text_boxes ≠ [] ∨
      (_convert_single_page opts none elements pdf_page_width pdf_page_height
          slide_width slide_height
          (create_slide_from_image image_width image_height slide_width slide_height
            image_bytes)).images ≠ [] ∨
      _convert_single_page opts none elements pdf_page_width pdf_page_height
          slide_width slide_height
          (create_slide_from_image image_width image_height slide_width slide_height
            image_bytes) =
        create_slide_from_image image_width image_height slide_width slide_height
          image_bytes) ∧
    (create_slide_from_image image_width image_height slide_width slide_height
        image_bytes).images.length = 1 := by
  unfold _convert_single_page _detect_and_extract_charts
  rw [hfb]
  simp only [ite_self, Bool.true_and, List.isEmpty_nil, Bool.and_true]
  by_cases h : ((_process_text_blocks elements.text_blocks pdf_page_width
      pdf_page_height slide_width slide_height).isEmpty &&
    (_process_images elements.images pdf_page_width pdf_page_height
      slide_width slide_height).isEmpty) = true
  · rw [if_pos h]
    refine ⟨?_, Or.inr (Or.inr rfl), ?_⟩
    · simp [create_slide_from_image]
    · simp [create_slide_from_image]
  · rw [if_neg h]
    refine ⟨rfl, ?_, by simp [create_slide_from_image]⟩
    rw [Bool.and_eq_true, not_and_or] at h
    rcases h with h | h
    · left
      intro hnil
      exact h (List.isEmpty_iff.mpr hnil)
    · right
      left
      intro hnil
      exact h (List.isEmpty_iff.mpr hnil)

/-- C4 amended, witnessed concretely: with default options (fallback enabled)
    and a failing recognizer on the candidate-bearing page, the conclusion
    holds at the same concrete input as the counterexample. -/
theorem convert_single_page_recognizer_fails_witness :
    defaultOptions.fallback_to_image = true ∧
    ((_convert_single_page defaultOptions none pageWithChartCandidate 100 100 (40/3)
        (15/2) (create_slide_from_image 200 100 (40/3) (15/2) [])).charts = [] ∧
      ((_convert_single_page defaultOptions none pageWithChartCandidate 100 100 (40/3)
          (15/2) (create_slide_from_image 200 100 (40/3) (15/2) [])).text_boxes ≠ [] ∨
        (_convert_single_page defaultOptions none pageWithChartCandidate 100 100 (40/3)
            (15/2) (create_slide_from_image 200 100 (40/3) (15/2) [])).images ≠ [] ∨
        _convert_single_page defaultOptions none pageWithChartCandidate 100 100 (40/3)
            (15/2) (create_slide_from_image 200 100 (40/3) (15/2) []) =
          create_slide_from_image 200 100 (40/3) (15/2) []) ∧
      (create_slide_from_image 200 100 (40/3) (15/2) []).images.length = 1) :=
  ⟨rfl, convert_single_page_recognizer_fails defaultOptions pageWithChartCandidate
    100 100 (40/3) (15/2) 200 100 [] rfl⟩

/-- The progress reporting of the parallel loop (ppt_converter.py lines
    654-668): after each worker completes, the callback is invoked directly —
    with no surrounding try — with the incremented completed count, the page
    total, and a per-page message.  A callback that raises is modelled as
    returning `Except.error`, which aborts the loop. -/
def progressLoop {ε : Type} (cb : Nat → Nat → String → Except ε Unit)
    (total : Nat) : List Nat → Nat → Except ε Unit
  | [], _ => Except.ok ()
  | p :: rest, completed => do
      cb (completed + 1) total ("Converted page " ++ toString p)
      progressLoop cb total rest (completed + 1)

/-- PDFToPPTConverter.convert (ppt_converter.py lines 548-628), reduced to its
    callback and ordering behavior: the callback is invoked unguarded before
    conversion starts, once per completed page in worker completion order,
    once before the file is written and once after.  Any callback exception
    propagates out of convert; otherwise the slides are returned in requested
    page order via the results table. -/
def convert {ε α : Type} (cb : Nat → Nat → String → Except ε Unit)
    (pageResult : Nat → α) (pages order : List Nat) :
    Except ε (Option (List α)) := do
  cb 0 pages.length "Starting conversion..."
  progressLoop cb pages.length order 0
  cb pages.length pages.length "Creating PowerPoint file..."
  cb pages.length pages.length "Done!"
  pure (convertPagesParallel pageResult pages order)

/-- A minimal, empty slide used as a page result below. -/
def emptySlide : SlideContent :=
  { layout := defaultLayout, text_boxes := [], charts := [], images := [],
    shapes := [], tables := [] }

/-- C8 counterexample: a progress callback that raises on its first
    invocation aborts the conversion before any result is produced, while the
    identical conversion with a succeeding callback completes and returns the
    page's slide — so a raising callback does NOT leave the conversion
    behaving as if the callback had succeeded. -/
theorem convert_callback_aborts_cex :
    convert (fun _ _ _ => Except.error ()) (fun _ => emptySlide) [1] [1] =
      Except.error () ∧
    convert (fun _ _ _ => (Except.ok () : Except Unit Unit)) (fun _ => emptySlide)
        [1] [1] = Except.ok (some [emptySlide]) ∧
    (Except.error () : Except Unit (Option (List SlideContent))) ≠
      Except.ok (some [emptySlide]) := by
  refine ⟨rfl, rfl, ?_⟩
  intro h
  cases h

/-- C8 amended: callback invocations are unguarded, so the very first callback
    exception propagates out of convert as-is: if the initial
    "Starting conversion..." call raises, convert raises that same error and
    no pages are reported converted. -/
theorem convert_first_callback_error_propagates {ε α : Type}
    (cb : Nat → Nat → String → Except ε Unit) (pageResult : Nat → α)
    (pages order : List Nat) (e : ε)
    (h : cb 0 pages.length "Starting conversion..." = Except.error e) :
    convert cb pageResult pages order = Except.error e := by
  unfold convert
  rw [h]
  rfl

/-- C8 amended, witnessed concretely: the always-raising callback satisfies
    the hypothesis and convert returns its error. -/
theorem convert_first_callback_error_propagates_witness :
    ((fun _ _ _ => Except.error ()) : Nat → Nat → String → Except Unit Unit) 0
        ([1] : List Nat).length "Starting conversion..." = Except.error () ∧
    convert (fun _ _ _ => Except.error ()) (fun _ => emptySlide) [1] [1] =
      Except.error () :=
  ⟨rfl, convert_first_callback_error_propagates
    (fun _ _ _ => Except.error ()) (fun _ => emptySlide) [1] [1] () rfl⟩

end NanoPDF
